import Mathlib

/-!
Shallow embedding of the API gateway in `gateway/main.py`: token issuance and
verification (`create_access_token`, `verify_token`), the static service
registry (`SERVICES`), the forwarder (`forward_request`) and a protected route
handler (`get_all_courses`).

Modelling conventions:
* Machine time (`datetime.utcnow()`) is a `Nat` parameter `now`, in seconds.
* A JWT is modelled abstractly: either a malformed string, or a payload signed
  with a key.  `jwtDecode` follows the JWT library's checking order: the
  signature is verified first, then the `exp` claim is validated (a token is
  expired when `exp ≤ now`, leeway 0).  `jwt.JWTError` is modelled as the
  catch-all class of decode errors (malformed token or bad signature).
* The network is a parameter `net : String → String → NetResult` giving the
  outcome of the single outbound HTTP call (method, url).  The GET/POST/PUT/
  DELETE client dispatch all issue the same call shape, so they are abstracted
  into one application of `net`.  `forward_request` also returns the list of
  outbound calls it issued, so "never reaches the network layer" is the
  statement that this list is empty.
* `response.json()` in Python either returns a parsed value or raises; the
  model carries this as an `Except String Json` field of the backend response
  (the `String` is `str(e)` of the raised parse exception).
* FastAPI renders a raised `HTTPException(s, d)` as a response with status `s`
  and body `{"detail": d}`; the model keeps the raised exception
  (`FwdResult.httpError`) distinct from a returned `JSONResponse`
  (`FwdResult.jsonResponse`).
-/

namespace Gateway

/-- JSON values, used for request/response bodies and error details. -/
inductive Json where
  | null : Json
  | bool (b : Bool) : Json
  | num (n : Int) : Json
  | str (s : String) : Json
  | arr (elems : List Json) : Json
  | obj (fields : List (String × Json)) : Json
deriving Repr

/-- `SECRET_KEY` from `gateway/main.py`. -/
def SECRET_KEY : String := "your-secret-key-keep-it-secret"

/-- `ACCESS_TOKEN_EXPIRE_MINUTES` from `gateway/main.py`. -/
def ACCESS_TOKEN_EXPIRE_MINUTES : Nat := 30

/-- The static service registry `SERVICES` (logical name → base URL). -/
def SERVICES : List (String × String) :=
  [("student", "http://localhost:8001"), ("course", "http://localhost:8002")]

/-- `list(SERVICES.keys())`. -/
def availableServices : List String := SERVICES.map Prod.fst

/-- The payload dict passed to `create_access_token` (`{"sub": …, "role": …}`).
`Option` because a dict may lack a key. -/
structure TokenData where
  sub : Option String
  role : Option String
deriving Repr, DecidableEq

/-- A decoded JWT payload: the token data plus the `exp` claim. -/
structure Claims where
  sub : Option String
  role : Option String
  exp : Nat
deriving Repr, DecidableEq

/-- A JWT as the gateway sees it: an opaque string that is either not a JWT at
all, or a payload signed with some key. -/
inductive Token where
  | malformed (raw : String) : Token
  | signed (payload : Claims) (key : String) : Token
deriving Repr, DecidableEq

/-- Errors raised by `jwt.decode`. -/
inductive JwtError where
  | invalidSignature : JwtError
  | expiredSignature : JwtError
  | decodeError : JwtError
deriving Repr, DecidableEq

/-- `jwt.encode(payload, key, algorithm="HS256")`. -/
def jwtEncode (payload : Claims) (key : String) : Token :=
  Token.signed payload key

/-- `jwt.decode(token, key, algorithms=["HS256"])` at time `now`: the library
verifies the signature first, then validates the `exp` claim. -/
def jwtDecode (token : Token) (key : String) (now : Nat) : Except JwtError Claims :=
  match token with
  | Token.malformed _ => Except.error JwtError.decodeError
  | Token.signed payload k =>
    if k ≠ key then Except.error JwtError.invalidSignature
    else if payload.exp ≤ now then Except.error JwtError.expiredSignature
    else Except.ok payload

/-- `create_access_token(data)`: copy the data, add
`exp = now + 30 minutes`, sign with `SECRET_KEY`. -/
def create_access_token (data : TokenData) (now : Nat) : Token :=
  jwtEncode { sub := data.sub, role := data.role,
              exp := now + ACCESS_TOKEN_EXPIRE_MINUTES * 60 } SECRET_KEY

/-- Outcome of `verify_token`: the decoded payload, or a raised
`HTTPException(status_code, detail)`. -/
inductive VerifyResult where
  | ok (payload : Claims) : VerifyResult
  | httpError (statusCode : Nat) (detail : String) : VerifyResult
deriving Repr, DecidableEq

/-- `verify_token` from `gateway/main.py`: decode with `SECRET_KEY`; a missing
`sub` claim raises 401 "Invalid authentication credentials" (an
`HTTPException`, not caught by the `jwt` except clauses);
`jwt.ExpiredSignatureError` maps to 401 "Token has expired"; any other decode
failure (`jwt.JWTError`) maps to 401 "Could not validate credentials". -/
def verify_token (token : Token) (now : Nat) : VerifyResult :=
  match jwtDecode token SECRET_KEY now with
  | Except.ok payload =>
    match payload.sub with
    | none => VerifyResult.httpError 401 "Invalid authentication credentials"
    | some _ => VerifyResult.ok payload
  | Except.error JwtError.expiredSignature =>
    VerifyResult.httpError 401 "Token has expired"
  | Except.error JwtError.invalidSignature =>
    VerifyResult.httpError 401 "Could not validate credentials"
  | Except.error JwtError.decodeError =>
    VerifyResult.httpError 401 "Could not validate credentials"

/-- The `Authorization` header of an inbound request, as `HTTPBearer` sees it:
absent, a bearer token, or credentials under some other scheme. -/
inductive AuthHeader where
  | missing : AuthHeader
  | bearer (token : Token) : AuthHeader
  | otherScheme (scheme : String) (credentials : String) : AuthHeader
deriving Repr

/-- FastAPI's `HTTPBearer()` dependency (`security`): a missing header raises
`HTTPException(403, "Not authenticated")`; a non-bearer scheme raises
`HTTPException(403, "Invalid authentication credentials")`. -/
def httpBearer : AuthHeader → Except (Nat × String) Token
  | AuthHeader.missing => Except.error (403, "Not authenticated")
  | AuthHeader.otherScheme _ _ => Except.error (403, "Invalid authentication credentials")
  | AuthHeader.bearer t => Except.ok t

/-- An entry of `fake_users_db`. -/
structure User where
  username : String
  password : String
  role : String
deriving Repr, DecidableEq

/-- The mock user database `fake_users_db`, keyed by username. -/
def fake_users_db : List (String × User) :=
  [("admin", { username := "admin", password := "admin123", role := "admin" }),
   ("user", { username := "user", password := "user123", role := "user" })]

/-- Body of `POST /auth/login`. -/
structure LoginRequest where
  username : String
  password : String
deriving Repr, DecidableEq

/-- Outcome of the `login` handler: `{access_token, token_type}` or a raised
`HTTPException`. -/
inductive LoginResult where
  | ok (access_token : Token) (token_type : String) : LoginResult
  | httpError (statusCode : Nat) (detail : Json) : LoginResult
deriving Repr

/-- The 401 detail the `login` handler raises on a bad credential pair. -/
def authenticationFailedDetail : Json :=
  Json.obj [("error", Json.str "Authentication Failed"),
            ("message", Json.str "Incorrect username or password")]

/-- The `login` handler: look the username up in `fake_users_db`; if absent or
the password differs, raise 401; otherwise issue a token for
`{"sub": username, "role": role}` and return it with `token_type = "bearer"`. -/
def login (req : LoginRequest) (now : Nat) : LoginResult :=
  match fake_users_db.lookup req.username with
  | none => LoginResult.httpError 401 authenticationFailedDetail
  | some user =>
    if user.password ≠ req.password then
      LoginResult.httpError 401 authenticationFailedDetail
    else
      LoginResult.ok
        (create_access_token { sub := some user.username, role := some user.role } now)
        "bearer"

/-- One outbound HTTP call issued by the forwarder: the client verb, the full
URL, and the JSON payload attached via the `json=` kwarg (if any). -/
structure NetCall where
  method : String
  url : String
  body : Option Json
deriving Repr

/-- Outcome of an outbound `httpx` call: a response (status, raw text, and the
result of `response.json()` — `Except.error m` when parsing raises, `m` being
`str` of the exception), `httpx.TimeoutException`, `httpx.ConnectError`, or any
other exception (with its `str`). -/
inductive NetResult where
  | response (statusCode : Nat) (text : String) (parsed : Except String Json) : NetResult
  | timeout : NetResult
  | connectError : NetResult
  | otherError (message : String) : NetResult
deriving Repr

/-- Outcome of `forward_request`: a returned `JSONResponse(content, status)` or
a raised `HTTPException(status, detail)`. -/
inductive FwdResult where
  | jsonResponse (content : Json) (statusCode : Nat) : FwdResult
  | httpError (statusCode : Nat) (detail : Json) : FwdResult
deriving Repr

/-- HTTP status carried by a `FwdResult`. -/
def FwdResult.status : FwdResult → Nat
  | FwdResult.jsonResponse _ s => s
  | FwdResult.httpError s _ => s

/-- The methods handled by the forwarder's `if`/`elif` client dispatch. -/
def allowedMethods : List String := ["GET", "POST", "PUT", "DELETE"]

/-- 404 detail raised when the service is not in `SERVICES`. -/
def serviceNotFoundDetail (service : String) : Json :=
  Json.obj [("error", Json.str "Service Not Found"),
            ("message", Json.str ("The requested service '" ++ service ++ "' is not available")),
            ("available_services", Json.arr (availableServices.map Json.str))]

/-- Detail of the `HTTPException(405)` built for an unsupported method.
(This exception is swallowed inside `forward_request`; see below.) -/
def methodNotAllowedDetail (method : String) : Json :=
  Json.obj [("error", Json.str "Method Not Allowed"),
            ("message", Json.str ("HTTP method '" ++ method ++ "' is not supported")),
            ("allowed_methods", Json.arr (allowedMethods.map Json.str))]

/-- Body returned when the backend answers with status ≥ 400: the upstream
status and the backend's own body text under `message`. -/
def serviceErrorDetail (service : String) (statusCode : Nat) (text : String) : Json :=
  Json.obj [("error", Json.str "Service Error"),
            ("status_code", Json.num (statusCode : Int)),
            ("service", Json.str service),
            ("message", Json.str text)]

/-- 504 detail raised on `httpx.TimeoutException`. -/
def gatewayTimeoutDetail (service : String) : Json :=
  Json.obj [("error", Json.str "Gateway Timeout"),
            ("message", Json.str ("The service '" ++ service ++ "' took too long to respond")),
            ("service", Json.str service)]

/-- 503 detail raised on `httpx.ConnectError`; `service_url` is the configured
base URL `SERVICES[service]`. -/
def serviceUnavailableDetail (service : String) (baseUrl : String) : Json :=
  Json.obj [("error", Json.str "Service Unavailable"),
            ("message", Json.str ("Unable to connect to '" ++ service ++ "' service. Please ensure the service is running.")),
            ("service", Json.str service),
            ("service_url", Json.str baseUrl)]

/-- 500 detail raised by the generic `except Exception as e` arm;
`details` is `str(e)`. -/
def internalServerErrorDetail (details : String) : Json :=
  Json.obj [("error", Json.str "Internal Server Error"),
            ("message", Json.str "An unexpected error occurred while processing your request"),
            ("details", Json.str details)]

/-- `str(e)` of the swallowed `HTTPException(405, methodNotAllowedDetail m)`:
Python formats it as `"<status>: <detail>"`; the dict repr of the detail is
abbreviated here to its message (no claim inspects this string). -/
def methodNotAllowedExceptionText (method : String) : String :=
  "405: HTTP method '" ++ method ++ "' is not supported"

/-- `forward_request(service, path, method, **kwargs)` from `gateway/main.py`,
paired with the list of outbound calls it issued.

Control flow mirrors the source: an unknown service raises 404 before the
`try` block; inside the `try`, an unsupported method raises
`HTTPException(405)` — but since `HTTPException` is a subclass of `Exception`
and the raise happens in the `try` body, the generic `except Exception as e`
catches it and re-raises it as a 500; a backend response with status ≥ 400 is
returned as a `JSONResponse` with the upstream status; a response below 400
returns `response.json() if response.text else None`, where a `json()` parse
failure is likewise caught by `except Exception`; `TimeoutException` and
`ConnectError` are raised from their own `except` clauses (which the later
`except Exception` of the same `try` does not catch) as 504 and 503. -/
def forward_request (service : String) (path : String) (method : String)
    (body : Option Json) (net : String → String → NetResult) :
    FwdResult × List NetCall :=
  match SERVICES.lookup service with
  | none => (FwdResult.httpError 404 (serviceNotFoundDetail service), [])
  | some baseUrl =>
    let url := baseUrl ++ path
    if method ∈ allowedMethods then
      match net method url with
      | NetResult.response statusCode text parsed =>
        if 400 ≤ statusCode then
          (FwdResult.jsonResponse (serviceErrorDetail service statusCode text) statusCode,
           [{ method := method, url := url, body := body }])
        else if text = "" then
          (FwdResult.jsonResponse Json.null statusCode,
           [{ method := method, url := url, body := body }])
        else
          match parsed with
          | Except.ok content =>
            (FwdResult.jsonResponse content statusCode,
             [{ method := method, url := url, body := body }])
          | Except.error m =>
            (FwdResult.httpError 500 (internalServerErrorDetail m),
             [{ method := method, url := url, body := body }])
      | NetResult.timeout =>
        (FwdResult.httpError 504 (gatewayTimeoutDetail service),
         [{ method := method, url := url, body := body }])
      | NetResult.connectError =>
        (FwdResult.httpError 503 (serviceUnavailableDetail service baseUrl),
         [{ method := method, url := url, body := body }])
      | NetResult.otherError m =>
        (FwdResult.httpError 500 (internalServerErrorDetail m),
         [{ method := method, url := url, body := body }])
    else
      (FwdResult.httpError 500
        (internalServerErrorDetail (methodNotAllowedExceptionText method)), [])

/-- FastAPI's dependency chain on a protected route:
`Depends(security)` (HTTPBearer) feeding `Depends(verify_token)`. -/
def authResult (auth : AuthHeader) (now : Nat) : Except (Nat × String) Claims :=
  match httpBearer auth with
  | Except.error e => Except.error e
  | Except.ok tok =>
    match verify_token tok now with
    | VerifyResult.httpError s d => Except.error (s, d)
    | VerifyResult.ok payload => Except.ok payload

/-- The protected route `GET /gateway/courses`: the dependency chain runs
before the handler body, so a failure there is returned (rendered by FastAPI
as `{"detail": d}` with its status) without `forward_request` ever running;
on success the handler delegates to
`forward_request("course", "/api/courses", "GET")`. -/
def get_all_courses (auth : AuthHeader) (now : Nat)
    (net : String → String → NetResult) : FwdResult × List NetCall :=
  match authResult auth now with
  | Except.error (s, d) => (FwdResult.httpError s (Json.str d), [])
  | Except.ok _payload => forward_request "course" "/api/courses" "GET" none net

/-- A backend that refuses every connection (`httpx.ConnectError`). -/
def netRefuse : String → String → NetResult := fun _ _ => NetResult.connectError

/-- A backend on which every call times out (`httpx.TimeoutException`). -/
def netTimeout : String → String → NetResult := fun _ _ => NetResult.timeout

/-- A backend answering 404 with a plain-text body. -/
def netUpstream404 : String → String → NetResult := fun _ _ =>
  NetResult.response 404 "Course not found" (Except.error "Expecting value: line 1 column 1 (char 0)")

/-- A backend answering 200 with the JSON array `[]`. -/
def netEmptyList : String → String → NetResult := fun _ _ =>
  NetResult.response 200 "[]" (Except.ok (Json.arr []))

/-- A backend answering 204 with an empty body. -/
def netNoContent : String → String → NetResult := fun _ _ =>
  NetResult.response 204 "" (Except.error "Expecting value: line 1 column 1 (char 0)")

/-- A backend answering 200 with a body that is not valid JSON. -/
def netBadBody : String → String → NetResult := fun _ _ =>
  NetResult.response 200 "<html>oops</html>" (Except.error "Expecting value: line 1 column 1 (char 0)")

/-! ## Helper lemmas -/

/-- A service name different from both configured names is absent from the
registry. -/
theorem lookup_services_eq_none (service : String)
    (hs : service ≠ "student") (hc : service ≠ "course") :
    SERVICES.lookup service = none := by
  have h1 : (service == "student") = false := beq_eq_false_iff_ne.mpr hs
  have h2 : (service == "course") = false := beq_eq_false_iff_ne.mpr hc
  simp [SERVICES, List.lookup, h1, h2]

/-! ## Claims -/

/-- Claim C1 (code bug): for an unsupported method such as "PATCH", the source
builds `HTTPException(405, methodNotAllowedDetail)` but raises it inside the
`try` block, where the generic `except Exception` catches it and re-raises it
as 500 Internal Server Error; no network call is issued.  The caller therefore
observes 500, not the 405 the code (and the spec) intended. -/
theorem forward_request_unsupported_method_yields_500 :
    forward_request "student" "/api/students" "PATCH" none netRefuse =
      (FwdResult.httpError 500
        (internalServerErrorDetail (methodNotAllowedExceptionText "PATCH")), []) ∧
    (forward_request "student" "/api/students" "PATCH" none netRefuse).1.status ≠ 405 := by
  refine ⟨rfl, ?_⟩
  decide

/-- Claim C7: for every service name outside the registry, `forward_request`
raises 404 with error "Service Not Found" and an `available_services` field
listing exactly the configured names "student" and "course", and issues no
network call. -/
theorem forward_request_unknown_service_404 (service path method : String)
    (body : Option Json) (net : String → String → NetResult)
    (hs : service ≠ "student") (hc : service ≠ "course") :
    forward_request service path method body net =
      (FwdResult.httpError 404 (serviceNotFoundDetail service), []) ∧
    serviceNotFoundDetail service =
      Json.obj [("error", Json.str "Service Not Found"),
                ("message", Json.str ("The requested service '" ++ service ++ "' is not available")),
                ("available_services", Json.arr [Json.str "student", Json.str "course"])] := by
  constructor
  · unfold forward_request
    rw [lookup_services_eq_none service hs hc]
  · rfl

/-- Witness for C7 at the concrete service name "unknown-service". -/
theorem forward_request_unknown_service_404_witness :
    forward_request "unknown-service" "/x" "GET" none netRefuse =
      (FwdResult.httpError 404 (serviceNotFoundDetail "unknown-service"), []) ∧
    serviceNotFoundDetail "unknown-service" =
      Json.obj [("error", Json.str "Service Not Found"),
                ("message", Json.str ("The requested service '" ++ "unknown-service" ++ "' is not available")),
                ("available_services", Json.arr [Json.str "student", Json.str "course"])] :=
  forward_request_unknown_service_404 "unknown-service" "/x" "GET" none netRefuse
    (by decide) (by decide)

/-- Claim C2: when the backend answers with status ≥ 400, `forward_request`
returns a response with the upstream status code unchanged and the backend's
own body text carried in the `message` field of the returned body. -/
theorem forward_request_upstream_error_passthrough
    (service baseUrl path method : String) (body : Option Json)
    (net : String → String → NetResult)
    (statusCode : Nat) (text : String) (parsed : Except String Json)
    (hs : SERVICES.lookup service = some baseUrl)
    (hm : method ∈ allowedMethods)
    (hn : net method (baseUrl ++ path) = NetResult.response statusCode text parsed)
    (hge : 400 ≤ statusCode) :
    forward_request service path method body net =
      (FwdResult.jsonResponse (serviceErrorDetail service statusCode text) statusCode,
       [{ method := method, url := baseUrl ++ path, body := body }]) := by
  simp [forward_request, hs, hm, hn, hge]

/-- Witness for C2: the course service answers 404 for `/api/courses/999`;
the gateway passes the 404 and the backend body through. -/
theorem forward_request_upstream_error_passthrough_witness :
    forward_request "course" "/api/courses/999" "GET" none netUpstream404 =
      (FwdResult.jsonResponse (serviceErrorDetail "course" 404 "Course not found") 404,
       [{ method := "GET", url := "http://localhost:8002" ++ "/api/courses/999", body := none }]) :=
  forward_request_upstream_error_passthrough "course" "http://localhost:8002"
    "/api/courses/999" "GET" none netUpstream404 404 "Course not found"
    (Except.error "Expecting value: line 1 column 1 (char 0)")
    rfl (by decide) rfl (by decide)

/-- Claim C8: a refused/unreachable connection (`httpx.ConnectError`) makes
`forward_request` raise 503 with error "Service Unavailable", the service name
and its configured base URL; a network timeout (`httpx.TimeoutException`)
instead raises 504 with error "Gateway Timeout" naming the service. -/
theorem forward_request_unreachable_503_timeout_504
    (service baseUrl path method : String) (body : Option Json)
    (net : String → String → NetResult)
    (hs : SERVICES.lookup service = some baseUrl)
    (hm : method ∈ allowedMethods) :
    (net method (baseUrl ++ path) = NetResult.connectError →
      forward_request service path method body net =
        (FwdResult.httpError 503 (serviceUnavailableDetail service baseUrl),
         [{ method := method, url := baseUrl ++ path, body := body }])) ∧
    (net method (baseUrl ++ path) = NetResult.timeout →
      forward_request service path method body net =
        (FwdResult.httpError 504 (gatewayTimeoutDetail service),
         [{ method := method, url := baseUrl ++ path, body := body }])) := by
  constructor
  · intro hn
    simp [forward_request, hs, hm, hn]
  · intro hn
    simp [forward_request, hs, hm, hn]

/-- Witness for C8: with the course service refusing connections a forwarded
GET yields 503; with it timing out, 504. -/
theorem forward_request_unreachable_503_timeout_504_witness :
    forward_request "course" "/api/courses" "GET" none netRefuse =
      (FwdResult.httpError 503 (serviceUnavailableDetail "course" "http://localhost:8002"),
       [{ method := "GET", url := "http://localhost:8002" ++ "/api/courses", body := none }]) ∧
    forward_request "course" "/api/courses" "GET" none netTimeout =
      (FwdResult.httpError 504 (gatewayTimeoutDetail "course"),
       [{ method := "GET", url := "http://localhost:8002" ++ "/api/courses", body := none }]) :=
  ⟨(forward_request_unreachable_503_timeout_504 "course" "http://localhost:8002"
      "/api/courses" "GET" none netRefuse rfl (by decide)).1 rfl,
   (forward_request_unreachable_503_timeout_504 "course" "http://localhost:8002"
      "/api/courses" "GET" none netTimeout rfl (by decide)).2 rfl⟩

/-- Claim C9: a backend response with status < 400 is passed through with the
same status code; a non-empty body is returned as its parsed JSON value
verbatim, and an empty body is preserved as `None`/null. -/
theorem forward_request_success_passthrough
    (service baseUrl path method : String) (body : Option Json)
    (net : String → String → NetResult) (statusCode : Nat)
    (hs : SERVICES.lookup service = some baseUrl)
    (hm : method ∈ allowedMethods)
    (hlt : statusCode < 400) :
    (∀ parsed, net method (baseUrl ++ path) = NetResult.response statusCode "" parsed →
      forward_request service path method body net =
        (FwdResult.jsonResponse Json.null statusCode,
         [{ method := method, url := baseUrl ++ path, body := body }])) ∧
    (∀ text content, text ≠ "" →
      net method (baseUrl ++ path) = NetResult.response statusCode text (Except.ok content) →
      forward_request service path method body net =
        (FwdResult.jsonResponse content statusCode,
         [{ method := method, url := baseUrl ++ path, body := body }])) := by
  have hnge : ¬ 400 ≤ statusCode := not_le.mpr hlt
  constructor
  · intro parsed hn
    simp [forward_request, hs, hm, hn, hnge]
  · intro text content hne hn
    simp [forward_request, hs, hm, hn, hnge, hne]

/-- Witness for C9: a 200 response with body `[]` is passed through as the
JSON array with status 200, and a 204 response with an empty body yields a
null body with status 204. -/
theorem forward_request_success_passthrough_witness :
    forward_request "course" "/api/courses" "GET" none netEmptyList =
      (FwdResult.jsonResponse (Json.arr []) 200,
       [{ method := "GET", url := "http://localhost:8002" ++ "/api/courses", body := none }]) ∧
    forward_request "course" "/api/courses" "GET" none netNoContent =
      (FwdResult.jsonResponse Json.null 204,
       [{ method := "GET", url := "http://localhost:8002" ++ "/api/courses", body := none }]) :=
  ⟨(forward_request_success_passthrough "course" "http://localhost:8002" "/api/courses"
      "GET" none netEmptyList 200 rfl (by decide) (by decide)).2
        "[]" (Json.arr []) (by decide) rfl,
   (forward_request_success_passthrough "course" "http://localhost:8002" "/api/courses"
      "GET" none netNoContent 204 rfl (by decide) (by decide)).1
        (Except.error "Expecting value: line 1 column 1 (char 0)") rfl⟩

/-- Claim C10: a backend response with status < 400 whose body is non-empty
but not valid JSON is not passed through: `response.json()` raises, the
generic `except Exception` catches it, and `forward_request` raises 500 with
error "Internal Server Error". -/
theorem forward_request_invalid_json_500
    (service baseUrl path method : String) (body : Option Json)
    (net : String → String → NetResult)
    (statusCode : Nat) (text : String) (message : String)
    (hs : SERVICES.lookup service = some baseUrl)
    (hm : method ∈ allowedMethods)
    (hlt : statusCode < 400)
    (hne : text ≠ "")
    (hn : net method (baseUrl ++ path) = NetResult.response statusCode text (Except.error message)) :
    forward_request service path method body net =
      (FwdResult.httpError 500 (internalServerErrorDetail message),
       [{ method := method, url := baseUrl ++ path, body := body }]) := by
  have hnge : ¬ 400 ≤ statusCode := not_le.mpr hlt
  simp [forward_request, hs, hm, hn, hnge, hne]

/-- Witness for C10: a 200 response with a non-JSON body yields the generic
500 Internal Server Error. -/
theorem forward_request_invalid_json_500_witness :
    forward_request "course" "/api/courses" "GET" none netBadBody =
      (FwdResult.httpError 500
        (internalServerErrorDetail "Expecting value: line 1 column 1 (char 0)"),
       [{ method := "GET", url := "http://localhost:8002" ++ "/api/courses", body := none }]) :=
  forward_request_invalid_json_500 "course" "http://localhost:8002" "/api/courses"
    "GET" none netBadBody 200 "<html>oops</html>"
    "Expecting value: line 1 column 1 (char 0)"
    rfl (by decide) (by decide) (by decide) rfl

/-- Claim C3 counterexample: a token whose expiry is in the past but whose
signature is tampered fails with "Could not validate credentials"
(InvalidToken), not "Token has expired" (ExpiredToken): the library verifies
the signature before it validates the `exp` claim. -/
theorem verify_token_expired_tampered_counterexample :
    verify_token
      (Token.signed { sub := some "admin", role := some "admin", exp := 10 }
        "tampered-secret") 100 =
      VerifyResult.httpError 401 "Could not validate credentials" ∧
    VerifyResult.httpError (401 : Nat) "Could not validate credentials" ≠
      VerifyResult.httpError 401 "Token has expired" :=
  ⟨rfl, by decide⟩

/-- Claim C3 (amended): a token with a valid signature whose expiry has passed
fails with ExpiredToken (401, "Token has expired"); a token signed with a
different key fails with InvalidToken (401, "Could not validate credentials")
regardless of its expiry. -/
theorem verify_token_expired_vs_tampered (payload : Claims) (key : String) (now : Nat) :
    (payload.exp < now →
      verify_token (Token.signed payload SECRET_KEY) now =
        VerifyResult.httpError 401 "Token has expired") ∧
    (key ≠ SECRET_KEY →
      verify_token (Token.signed payload key) now =
        VerifyResult.httpError 401 "Could not validate credentials") := by
  constructor
  · intro h
    simp [verify_token, jwtDecode, le_of_lt h]
  · intro h
    simp [verify_token, jwtDecode, h]

/-- Witness for the amended C3 at a concrete expired token and a concrete
tampered token. -/
theorem verify_token_expired_vs_tampered_witness :
    verify_token
      (Token.signed { sub := some "admin", role := some "admin", exp := 10 } SECRET_KEY)
      100 = VerifyResult.httpError 401 "Token has expired" ∧
    verify_token
      (Token.signed { sub := some "admin", role := some "admin", exp := 10 } "other-key")
      100 = VerifyResult.httpError 401 "Could not validate credentials" :=
  ⟨(verify_token_expired_vs_tampered
      { sub := some "admin", role := some "admin", exp := 10 } "other-key" 100).1 (by decide),
   (verify_token_expired_vs_tampered
      { sub := some "admin", role := some "admin", exp := 10 } "other-key" 100).2 (by decide)⟩

/-- Claim C4: for a stored (username, password) pair, `login` succeeds with a
bearer token, and `verify_token` before the 30-minute TTL accepts that token
with a payload whose subject and role equal the stored user's username and
role. -/
theorem login_verify_roundtrip (username password : String) (user : User) (t0 t1 : Nat)
    (hu : fake_users_db.lookup username = some user)
    (hp : user.password = password)
    (ht : t1 < t0 + ACCESS_TOKEN_EXPIRE_MINUTES * 60) :
    login { username := username, password := password } t0 =
      LoginResult.ok
        (create_access_token { sub := some user.username, role := some user.role } t0)
        "bearer" ∧
    verify_token
      (create_access_token { sub := some user.username, role := some user.role } t0) t1 =
      VerifyResult.ok { sub := some user.username, role := some user.role,
                        exp := t0 + ACCESS_TOKEN_EXPIRE_MINUTES * 60 } := by
  constructor
  · simp [login, hu, hp]
  · have hexp : ¬ (t0 + ACCESS_TOKEN_EXPIRE_MINUTES * 60 ≤ t1) := not_le.mpr ht
    simp [verify_token, create_access_token, jwtEncode, jwtDecode, hexp]

/-- Witness for C4: admin/admin123 at issue time 0, verified at time 100. -/
theorem login_verify_roundtrip_witness :
    login { username := "admin", password := "admin123" } 0 =
      LoginResult.ok
        (create_access_token { sub := some "admin", role := some "admin" } 0) "bearer" ∧
    verify_token (create_access_token { sub := some "admin", role := some "admin" } 0) 100 =
      VerifyResult.ok { sub := some "admin", role := some "admin",
                        exp := 0 + ACCESS_TOKEN_EXPIRE_MINUTES * 60 } :=
  login_verify_roundtrip "admin" "admin123"
    { username := "admin", password := "admin123", role := "admin" } 0 100
    rfl rfl (by decide)

/-- Claim C5 counterexample: a token with a valid signature that lacks the
`sub` claim but is already expired fails with "Token has expired"
(ExpiredToken), not with the InvalidToken outcome. -/
theorem verify_token_missing_sub_expired_counterexample :
    verify_token
      (Token.signed { sub := none, role := some "admin", exp := 10 } SECRET_KEY) 100 =
      VerifyResult.httpError 401 "Token has expired" ∧
    VerifyResult.httpError (401 : Nat) "Token has expired" ≠
      VerifyResult.httpError 401 "Invalid authentication credentials" ∧
    VerifyResult.httpError (401 : Nat) "Token has expired" ≠
      VerifyResult.httpError 401 "Could not validate credentials" :=
  ⟨rfl, by decide, by decide⟩

/-- Claim C5 (amended): a malformed token or one signed with a different key
fails 401 "Could not validate credentials"; a validly signed, unexpired token
lacking the `sub` claim fails 401 "Invalid authentication credentials"; and a
token lacking `sub` never yields a payload, whatever its key or expiry. -/
theorem verify_token_invalid_token_cases (raw : String) (payload : Claims)
    (key : String) (now : Nat) :
    (verify_token (Token.malformed raw) now =
      VerifyResult.httpError 401 "Could not validate credentials") ∧
    (key ≠ SECRET_KEY →
      verify_token (Token.signed payload key) now =
        VerifyResult.httpError 401 "Could not validate credentials") ∧
    (payload.sub = none → now < payload.exp →
      verify_token (Token.signed payload SECRET_KEY) now =
        VerifyResult.httpError 401 "Invalid authentication credentials") ∧
    (payload.sub = none →
      ∀ q, verify_token (Token.signed payload key) now ≠ VerifyResult.ok q) := by
  refine ⟨by simp [verify_token, jwtDecode], ?_, ?_, ?_⟩
  · intro h
    simp [verify_token, jwtDecode, h]
  · intro hsub hlt
    have hexp : ¬ (payload.exp ≤ now) := not_le.mpr hlt
    simp [verify_token, jwtDecode, hexp, hsub]
  · intro hsub q
    by_cases hk : key = SECRET_KEY
    · subst hk
      by_cases he : payload.exp ≤ now
      · simp [verify_token, jwtDecode, he]
      · simp [verify_token, jwtDecode, he, hsub]
    · simp [verify_token, jwtDecode, hk]

/-- Witness for the amended C5 at concrete malformed, tampered and
missing-subject tokens. -/
theorem verify_token_invalid_token_cases_witness :
    (verify_token (Token.malformed "not-a-jwt") 0 =
      VerifyResult.httpError 401 "Could not validate credentials") ∧
    (verify_token (Token.signed { sub := none, role := none, exp := 1000 } "other-key") 0 =
      VerifyResult.httpError 401 "Could not validate credentials") ∧
    (verify_token (Token.signed { sub := none, role := none, exp := 1000 } SECRET_KEY) 0 =
      VerifyResult.httpError 401 "Invalid authentication credentials") ∧
    verify_token (Token.signed { sub := none, role := none, exp := 1000 } "other-key") 0 ≠
      VerifyResult.ok { sub := none, role := none, exp := 1000 } :=
  have h := verify_token_invalid_token_cases "not-a-jwt"
    { sub := none, role := none, exp := 1000 } "other-key" 0
  ⟨h.1, h.2.1 (by decide), h.2.2.1 rfl (by decide),
   h.2.2.2 rfl { sub := none, role := none, exp := 1000 }⟩

/-- Every failure of `verify_token` carries status 401. -/
theorem verify_token_error_status (token : Token) (now : Nat) (s : Nat) (d : String)
    (h : verify_token token now = VerifyResult.httpError s d) : s = 401 := by
  cases token with
  | malformed raw =>
    simp [verify_token, jwtDecode, VerifyResult.httpError.injEq] at h
    exact h.1.symm
  | signed payload k =>
    by_cases hk : k = SECRET_KEY
    · subst hk
      by_cases he : payload.exp ≤ now
      · simp [verify_token, jwtDecode, he, VerifyResult.httpError.injEq] at h
        exact h.1.symm
      · cases hsub : payload.sub with
        | none =>
          simp [verify_token, jwtDecode, he, hsub, VerifyResult.httpError.injEq] at h
          exact h.1.symm
        | some u =>
          simp [verify_token, jwtDecode, he, hsub] at h
    · simp [verify_token, jwtDecode, hk, VerifyResult.httpError.injEq] at h
      exact h.1.symm

/-- Claim C6 counterexample: a request to `GET /gateway/courses` with no
`Authorization` header is rejected by the `HTTPBearer` dependency with status
403 ("Not authenticated"), not 401 — though `forward_request` is indeed never
invoked. -/
theorem get_all_courses_missing_header_403 :
    (get_all_courses AuthHeader.missing 0 netRefuse).2 = [] ∧
    (get_all_courses AuthHeader.missing 0 netRefuse).1.status = 403 ∧
    (403 : Nat) ≠ 401 :=
  ⟨rfl, rfl, by decide⟩

/-- Claim C6 (amended): whenever the auth dependency chain fails on the
protected `GET /gateway/courses` route, the gateway answers with that
failure's status — 403 from `HTTPBearer` for a missing header or non-bearer
scheme, 401 from `verify_token` otherwise — and `forward_request` issues no
call at all. -/
theorem get_all_courses_auth_failure_no_forward
    (auth : AuthHeader) (now : Nat) (net : String → String → NetResult)
    (s : Nat) (d : String)
    (h : authResult auth now = Except.error (s, d)) :
    get_all_courses auth now net = (FwdResult.httpError s (Json.str d), []) ∧
    (s = 401 ∨ s = 403) := by
  constructor
  · simp [get_all_courses, h]
  · cases auth with
    | missing =>
      simp [authResult, httpBearer, Prod.ext_iff] at h
      exact Or.inr h.1.symm
    | otherScheme sc cr =>
      simp [authResult, httpBearer, Prod.ext_iff] at h
      exact Or.inr h.1.symm
    | bearer tok =>
      cases hv : verify_token tok now with
      | ok p => simp [authResult, httpBearer, hv] at h
      | httpError s2 d2 =>
        have h401 : s2 = 401 := verify_token_error_status tok now s2 d2 hv
        simp [authResult, httpBearer, hv, Prod.ext_iff] at h
        exact Or.inl (h.1 ▸ h401)

/-- Witness for the amended C6: a garbage bearer token yields 401 with no
forwarded call. -/
theorem get_all_courses_auth_failure_no_forward_witness :
    get_all_courses (AuthHeader.bearer (Token.malformed "garbage")) 0 netRefuse =
      (FwdResult.httpError 401 (Json.str "Could not validate credentials"), []) ∧
    ((401 : Nat) = 401 ∨ (401 : Nat) = 403) :=
  get_all_courses_auth_failure_no_forward (AuthHeader.bearer (Token.malformed "garbage"))
    0 netRefuse 401 "Could not validate credentials" rfl

end Gateway
